import Mathlib

/-!
Verification development for the roster compliance engine of
Liga-Nacional-Clubes-Inscripciones (`data_processing.py`).

The Python functions are embedded shallowly: DataFrames become lists of
records or lists of cell rows, pandas boolean columns become `Bool`
fields, and Python strings become `String`.  Python string primitives
(`lower`, `upper`, `strip`, `split`, `replace`, substring tests) are
modelled by executable functions over `List Char`.  Where the source
calls into libraries (Unicode NFKD in `remove_accents`, `difflib`'s
`SequenceMatcher`, `pandas.to_numeric`, `strptime`), the library
behaviour is modelled faithfully on the repertoire the repository
actually handles (ASCII plus the Latin accented letters of Spanish
club data); these modelling choices are noted on each definition.
-/

set_option autoImplicit false
set_option maxRecDepth 8000

namespace Liga

/-- A non-negative rational value kept as an unreduced fraction
`num / den` (denominator positive at every use site).  The similarity
scores and thresholds of the source are floats; on the values the
pipeline actually produces (ratios of small integers) float
comparison agrees with exact fraction comparison, which is what the
cross-multiplication tests below compute. -/
structure Frac where
  num : Nat
  den : Nat
  deriving DecidableEq

/-- `a ≤ b` on fractions by cross-multiplication. -/
def fracLe (a b : Frac) : Bool := decide (a.num * b.den ≤ b.num * a.den)

/-- `a < b` on fractions by cross-multiplication. -/
def fracLt (a b : Frac) : Bool := decide (a.num * b.den < b.num * a.den)

/-- Trichotomy link between the two comparisons. -/
theorem fracLt_eq_not_fracLe (a b : Frac) : fracLt a b = !fracLe b a := by
  by_cases h : a.num * b.den < b.num * a.den <;>
    simp [fracLt, fracLe, h] <;> omega

/-! ## Python string primitives -/

/-- Whitespace as recognised by Python's `str.strip` / `str.split`
(modelled by the ASCII whitespace recognised by `Char.isWhitespace`). -/
def isPySpace (c : Char) : Bool := c.isWhitespace

/-- Strip leading and trailing whitespace from a character list. -/
def trimChars (l : List Char) : List Char :=
  ((l.dropWhile isPySpace).reverse.dropWhile isPySpace).reverse

/-- Python `str.strip()`. -/
def pyStrip (s : String) : String := ⟨trimChars s.data⟩

/-- Python `str.lower()` for one character.  Models the ASCII range and
the Latin-1 supplement letters (À..Þ except ×) used in Spanish text. -/
def pyLowerChar (c : Char) : Char :=
  let n := c.toNat
  if 65 ≤ n ∧ n ≤ 90 then Char.ofNat (n + 32)
  else if 0xC0 ≤ n ∧ n ≤ 0xDE ∧ n ≠ 0xD7 then Char.ofNat (n + 32)
  else c

/-- Python `str.upper()` for one character (same repertoire as
`pyLowerChar`). -/
def pyUpperChar (c : Char) : Char :=
  let n := c.toNat
  if 97 ≤ n ∧ n ≤ 122 then Char.ofNat (n - 32)
  else if 0xE0 ≤ n ∧ n ≤ 0xFE ∧ n ≠ 0xF7 then Char.ofNat (n - 32)
  else c

/-- Python `str.lower()`. -/
def pyLower (s : String) : String := ⟨s.data.map pyLowerChar⟩

/-- Python `str.upper()`. -/
def pyUpper (s : String) : String := ⟨s.data.map pyUpperChar⟩

/-- Does `pat` occur at the head of `l`? -/
def leadsWith : List Char → List Char → Bool
  | [], _ => true
  | _ :: _, [] => false
  | p :: ps, c :: cs => p == c && leadsWith ps cs

/-- Python substring test `pat in l`. -/
def containsSub (pat : List Char) : List Char → Bool
  | [] => pat.isEmpty
  | c :: rest => leadsWith pat (c :: rest) || containsSub pat rest

/-- Python `s in t` on strings. -/
def strContains (pat s : String) : Bool := containsSub pat.data s.data

/-- Does `l` end with `pat`? -/
def endsWithSub (pat l : List Char) : Bool := leadsWith pat.reverse l.reverse

/-- Python `s.endswith(pat)`. -/
def strEndsWith (pat s : String) : Bool := endsWithSub pat.data s.data

/-- Fuel-based worker for `replaceAllSub`; every step consumes at
least one character, so fuel `l.length` suffices. -/
def replaceAllSubAux (pat repl : List Char) : Nat → List Char → List Char
  | 0, l => l
  | _ + 1, [] => []
  | fuel + 1, c :: rest =>
    if pat ≠ [] ∧ leadsWith pat (c :: rest) then
      repl ++ replaceAllSubAux pat repl fuel (rest.drop (pat.length - 1))
    else
      c :: replaceAllSubAux pat repl fuel rest

/-- Python `str.replace(pat, repl)`: left-to-right, non-overlapping
replacement of every occurrence.  (An empty pattern is returned
unchanged; the repository only replaces non-empty patterns.) -/
def replaceAllSub (pat repl l : List Char) : List Char :=
  replaceAllSubAux pat repl l.length l

/-- Python `s.replace(pat, repl)` on strings. -/
def pyReplace (s pat repl : String) : String :=
  ⟨replaceAllSub pat.data repl.data s.data⟩

/-- Strip one combining-accent character (the NFKD-and-drop-combining
step of `remove_accents`), modelled on the Latin-1 accented letters:
each composed accented letter maps to its base letter, every other
non-combining character is unchanged. -/
def stripAccentChar (c : Char) : Char :=
  let n := c.toNat
  if 0xC0 ≤ n ∧ n ≤ 0xC5 then 'A'
  else if n = 0xC7 then 'C'
  else if 0xC8 ≤ n ∧ n ≤ 0xCB then 'E'
  else if 0xCC ≤ n ∧ n ≤ 0xCF then 'I'
  else if n = 0xD1 then 'N'
  else if 0xD2 ≤ n ∧ n ≤ 0xD6 then 'O'
  else if 0xD9 ≤ n ∧ n ≤ 0xDC then 'U'
  else if n = 0xDD then 'Y'
  else if 0xE0 ≤ n ∧ n ≤ 0xE5 then 'a'
  else if n = 0xE7 then 'c'
  else if 0xE8 ≤ n ∧ n ≤ 0xEB then 'e'
  else if 0xEC ≤ n ∧ n ≤ 0xEF then 'i'
  else if n = 0xF1 then 'n'
  else if 0xF2 ≤ n ∧ n ≤ 0xF6 then 'o'
  else if 0xF9 ≤ n ∧ n ≤ 0xFC then 'u'
  else if n = 0xFD ∨ n = 0xFF then 'y'
  else c

/-- Is `c` a combining diacritical mark (U+0300..U+036F)? -/
def isCombiningMark (c : Char) : Bool :=
  0x300 ≤ c.toNat && c.toNat ≤ 0x36F

/-- `remove_accents` (`data_processing.py` lines 249-252): NFKD
normalisation followed by dropping combining characters, modelled on
the Latin repertoire by `stripAccentChar` plus dropping free-standing
combining marks. -/
def remove_accents (s : String) : String :=
  ⟨(s.data.map stripAccentChar).filter (fun c => !isCombiningMark c)⟩

/-- Word characters for the regex `[^\w\s]` in `normalize_name`
(ASCII repertoire: letters, digits and underscore). -/
def isWordChar (c : Char) : Bool := c.isAlphanum || c == '_'

/-- The stopword/prefix replacement list of `normalize_name`
(lines 258-263), applied in this order. -/
def normalizeReplacements : List String :=
  ["club", "badminton", "deportivo",
   "c.b.", "c.d.", "c.d.b.", "cdb", "cb", "cd",
   "mercapinturas", "recreativo", "ies",
   "asociacion", "agrupacion"]

/-- Python `" ".join(s.split())`: split on whitespace runs and re-join
with single spaces. -/
def collapseWhitespace (l : List Char) : List Char :=
  List.intercalate [' '] ((l.splitOnP isPySpace).filter (fun w => !w.isEmpty))

/-- `normalize_name` (lines 254-268): lowercase, strip accents, delete
the stopword substrings in order, replace punctuation by spaces and
collapse whitespace. -/
def normalize_name (s : String) : String :=
  let l := (remove_accents (pyLower s)).data
  let l := normalizeReplacements.foldl (fun acc r => replaceAllSub r.data [] acc) l
  let l := l.map (fun c => if isWordChar c || isPySpace c then c else ' ')
  ⟨collapseWhitespace l⟩

/-! ## difflib.SequenceMatcher, modelled

`calculate_similarity` calls `difflib.SequenceMatcher(None, a, b).ratio()`.
For strings shorter than 200 characters (always the case for club
names) the autojunk heuristic is inert, so `ratio` is
`2 * M / (len a + len b)` where `M` is the total size of the matching
blocks found by recursive longest-match splitting; the longest match
maximises length and, among those, minimises the start in `a`, then
the start in `b`. -/

/-- Length of the common prefix of two character lists. -/
def commonPrefixLen : List Char → List Char → Nat
  | a :: as_, b :: bs => if a == b then commonPrefixLen as_ bs + 1 else 0
  | _, _ => 0

/-- Longest matching block `(i, j, k)` of two character lists:
maximal `k` with `a.drop i` and `b.drop j` sharing a length-`k` prefix;
ties resolved to the smallest `i`, then the smallest `j`. -/
def findLongestMatch (a b : List Char) : Nat × Nat × Nat :=
  (List.range (a.length)).foldl (fun best i =>
    (List.range (b.length)).foldl (fun best j =>
      let k := commonPrefixLen (a.drop i) (b.drop j)
      if k > best.2.2 then (i, j, k) else best) best) (0, 0, 0)

/-- Total size of all matching blocks (the recursion of
`get_matching_blocks`), with fuel for termination; fuel
`a.length + b.length + 1` always suffices. -/
def matchesTotal : Nat → List Char → List Char → Nat
  | 0, _, _ => 0
  | fuel + 1, a, b =>
    let m := findLongestMatch a b
    if m.2.2 = 0 then 0
    else
      matchesTotal fuel (a.take m.1) (b.take m.2.1) + m.2.2 +
        matchesTotal fuel (a.drop (m.1 + m.2.2)) (b.drop (m.2.1 + m.2.2))

/-- `SequenceMatcher.ratio()` (difflib's `_calculate_ratio`):
`2M / total`, and `1` when both sequences are empty. -/
def sequenceMatcherRatio (a b : List Char) : Frac :=
  let total := a.length + b.length
  if total = 0 then ⟨1, 1⟩
  else ⟨2 * matchesTotal (total + 1) a b, total⟩

/-- `calculate_similarity` (lines 270-281): `1.0` on normalized
containment, `0.0` if either normalized form is empty, else the
sequence ratio of the normalized forms. -/
def calculate_similarity (a b : String) : Frac :=
  let norm_a := normalize_name a
  let norm_b := normalize_name b
  if norm_a = "" ∨ norm_b = "" then ⟨0, 1⟩
  else if containsSub norm_a.data norm_b.data || containsSub norm_b.data norm_a.data then ⟨1, 1⟩
  else sequenceMatcherRatio norm_a.data norm_b.data

/-- `clean_string` (lines 241-244).  Cells are modelled as plain
strings (a missing cell is the empty string), so the `pd.isna` branch
is absorbed into stripping. -/
def clean_string (s : String) : String := pyStrip s

/-! ## Player Classifier (`is_cedido`, `is_no_seleccionable`,
`check_data_health`, `process_dataframe`) -/

/-- One raw roster row as consumed by `process_dataframe`: the
canonical columns produced by the Record Ingestor.  The club
equivalence map is modelled as an association list, preserving the
insertion / iteration order of the Python dict. -/
structure InRow where
  nID : String
  nombre : String
  nombre1 : String
  club : String
  pruebas : String
  pais : String
  genero : String
  deriving DecidableEq

/-- The equivalence-lookup loop of `is_cedido` (lines 299-309): scan
the map in order; at the FIRST key equal (case-insensitively) to the
club, test whether the team is among its destinations, and stop —
`break` runs whether or not the team was found under that key. -/
def findEquivalence (clubUpper equipoUpper : String) :
    List (String × List String) → Bool
  | [] => false
  | (key_club, valid_teams) :: rest =>
    if pyUpper key_club = clubUpper then
      decide (equipoUpper ∈ valid_teams.map pyUpper)
    else
      findEquivalence clubUpper equipoUpper rest

/-- `is_cedido` (lines 283-314): a player is loaned iff club and team
are non-blank, not equal ignoring case, their fuzzy similarity is
below the threshold, and the equivalence scan finds no match. -/
def is_cedido (row : InRow) (equivalences : List (String × List String))
    (fuzzy_threshold : Frac) : Bool :=
  let club := clean_string row.club
  let equipo := clean_string row.pruebas
  if club = "" ∨ equipo = "" then false
  else if pyUpper club = pyUpper equipo then false
  else if fracLe fuzzy_threshold (calculate_similarity club equipo) then false
  else if findEquivalence (pyUpper club) (pyUpper equipo) equivalences then false
  else true

/-- `is_no_seleccionable` (lines 316-320): foreign iff the trimmed
country, uppercased, differs from `"SPAIN"`. -/
def is_no_seleccionable (row : InRow) : Bool :=
  let pais := clean_string row.pais
  if pyUpper pais ≠ "SPAIN" then true else false

/-- `check_data_health` (lines 322-332) applied to the already-coerced
ID and the name cell. -/
def check_data_health (memberId nombre : String) : List String :=
  (if pyStrip memberId = "" then ["Falta ID"] else []) ++
    (if pyStrip nombre = "" then ["Falta Nombre"] else [])

/-- Model of `pd.to_numeric(x, errors='coerce')` followed by
`astype(int)`: parse an optionally signed decimal (a fractional part
is truncated towards zero); any other string coerces to `None`
(`NaN`). -/
def to_numeric_int (s : String) : Option Int :=
  let t := trimChars s.data
  let (sign, digits) :=
    match t with
    | '-' :: rest => ((-1 : Int), rest)
    | '+' :: rest => ((1 : Int), rest)
    | _ => ((1 : Int), t)
  let intPart := digits.takeWhile Char.isDigit
  let rest := digits.dropWhile Char.isDigit
  let fracOk :=
    match rest with
    | [] => true
    | '.' :: fs => !fs.isEmpty && fs.all Char.isDigit
    | _ => false
  if intPart.isEmpty || !fracOk then none
  else some (sign * (intPart.foldl (fun n c => 10 * n + (c.toNat - 48)) 0 : Nat))

/-- One processed roster row: the output schema of
`process_dataframe` (lines 348-403) for a fresh import (the
review-state columns are initialised to their documented defaults). -/
structure ProcRow where
  nID : Int
  nombre : String
  nombre1 : String
  club : String
  pruebas : String
  pais : String
  genero : String
  esCedido : Bool
  noSeleccionable : Bool
  erroresDatos : List String
  datosValidos : Bool
  declaracionJurada : Bool
  documentoCesion : Bool
  erroresNormativos : String
  esExcluido : Bool
  licenciaSubsanada : Bool
  estado : String
  jugador : String
  generoNorm : String
  deriving DecidableEq

/-- `determine_status` (lines 378-386). -/
def determine_status (esCedido noSeleccionable esExcluido datosValidos : Bool) :
    String :=
  let status :=
    (if esCedido then ["Cedido"] else []) ++
    (if noSeleccionable then ["Extranjero"] else []) ++
    (if esExcluido then ["EXCLUIDO"] else []) ++
    (if !datosValidos then ["Datos Incompletos"] else [])
  if status.isEmpty then "OK" else String.intercalate " | " status

/-- `process_dataframe` on one row.  Line 355 is the ID coercion
`pd.to_numeric(df['Nº.ID'], errors='coerce').fillna(0).astype(int)`:
a non-numeric ID becomes the integer `0`.  `check_data_health` then
reads the coerced column. -/
def process_row (equivalences : List (String × List String))
    (fuzzy_threshold : Frac) (r : InRow) : ProcRow :=
  let idNum : Int := (to_numeric_int r.nID).getD 0
  let esCedido := is_cedido r equivalences fuzzy_threshold
  let noSel := is_no_seleccionable r
  let errDatos := check_data_health (toString idNum) r.nombre
  let datosValidos := errDatos.isEmpty
  { nID := idNum
    nombre := r.nombre
    nombre1 := r.nombre1
    club := r.club
    pruebas := r.pruebas
    pais := r.pais
    genero := r.genero
    esCedido := esCedido
    noSeleccionable := noSel
    erroresDatos := errDatos
    datosValidos := datosValidos
    declaracionJurada := false
    documentoCesion := false
    erroresNormativos := ""
    esExcluido := false
    licenciaSubsanada := false
    estado := determine_status esCedido noSel false datosValidos
    jugador := pyStrip (r.nombre1 ++ " " ++ r.nombre)
    generoNorm := pyStrip (pyUpper r.genero) }

/-- `process_dataframe` (row-wise over the table). -/
def process_dataframe (equivalences : List (String × List String))
    (fuzzy_threshold : Frac) (df : List InRow) : List ProcRow :=
  df.map (process_row equivalences fuzzy_threshold)

/-! ## Rule sets and category lookup -/

/-- One breakpoint of a `ratio_table`: `{"total": .., "max_cedidos": ..}`. -/
structure RatioRule where
  total : Nat
  max_cedidos : Nat
  deriving DecidableEq

/-- A category rule set.  The Python rules dict is accessed with
`.get(key, default)`, so each field is optional here and the
defaults are applied at the use sites exactly as in the source. -/
structure Rules where
  min_total : Option Nat := none
  max_total : Option Nat := none
  min_gender : Option Nat := none
  allow_loaned_players : Option Bool := none
  ratio_table : Option (List RatioRule) := none
  require_declaration : Option Bool := none
  require_loan_doc : Option Bool := none
  allow_non_selectable : Option Bool := none
  non_selectable_minors_only : Option Bool := none
  registration_deadline : Option String := none
  deriving DecidableEq

/-- `_get_category_robust` (lines 603-619): exact key, then stripped
key, then normalized-name comparison over the map in order, with
`"Sin Asignar"` as the fallback.  (`normalize_name` already
lowercases, matching the source's extra `.lower()`.) -/
def _get_category_robust (team_name : String)
    (team_categories : List (String × String)) : String :=
  match team_categories.find? (fun kv => kv.1 == team_name) with
  | some kv => kv.2
  | none =>
    match team_categories.find? (fun kv => kv.1 == pyStrip team_name) with
    | some kv => kv.2
    | none =>
      match team_categories.find?
          (fun kv => pyLower (normalize_name kv.1) == pyLower (normalize_name team_name)) with
      | some kv => kv.2
      | none => "Sin Asignar"

/-- `rules_config.get(category, {})` followed by the `if not rules:`
emptiness test: a category that is absent (or mapped to an empty
dict, which we model as absence) yields `none`. -/
def rulesFor (rules_config : List (String × Rules)) (category : String) :
    Option Rules :=
  (rules_config.find? (fun kv => kv.1 == category)).map (fun kv => kv.2)

/-! ## Ratio-table lookup -/

/-- `sorted(table, key=lambda x: x['total'])`. -/
def sortRatioTable (table : List RatioRule) : List RatioRule :=
  table.insertionSort (fun a b => a.total ≤ b.total)

/-- The shared scan of `check_ratio_limit` (lines 456-472) and
`check_ratio_dynamic` (lines 688-718) over the sorted table: an exact
`total` match takes that rule's limit and stops; the last rule also
applies when `total` exceeds its breakpoint (without stopping). -/
def ratioScan (lastRule : RatioRule) (total : Nat) :
    List RatioRule → Nat × Bool → Nat × Bool
  | [], acc => acc
  | r :: rest, acc =>
    if total = r.total then (r.max_cedidos, true)
    else if r = lastRule ∧ total > r.total then
      ratioScan lastRule total rest (r.max_cedidos, true)
    else
      ratioScan lastRule total rest acc

/-- `check_ratio_dynamic` (auditor, lines 688-718): returns
`(cedidos ≤ allowed, allowed)`; when the scan finds no rule, both
fallback branches of the source leave the limit at `0`. -/
def check_ratio_dynamic (total_g cedidos_g : Nat) (table : List RatioRule) :
    Bool × Nat :=
  let sorted_table := sortRatioTable table
  let res :=
    match sorted_table.getLast? with
    | none => ((0 : Nat), false)
    | some lastRule => ratioScan lastRule total_g sorted_table (0, false)
  let allowed := if res.2 then res.1 else 0
  (decide (cedidos_g ≤ allowed), allowed)

/-- `check_ratio_limit` (annotator, lines 456-472): the same scan and
fallback as `check_ratio_dynamic`. -/
def check_ratio_limit (total cedidos : Nat) (table : List RatioRule) :
    Bool × Nat :=
  let sorted_table := sortRatioTable table
  let res :=
    match sorted_table.getLast? with
    | none => ((0 : Nat), false)
    | some lastRule => ratioScan lastRule total sorted_table (0, false)
  let limit := if res.2 then res.1 else 0
  (decide (cedidos ≤ limit), limit)

/-! ## Canonical annotated row and the Aggregate Auditor -/

/-- One row of the canonical roster table as read by the Compliance
Evaluator (the columns present after classification; boolean columns
are `Bool`, text columns are `String`). -/
structure Row where
  pruebas : String
  generoNorm : String
  esCedido : Bool
  esExcluido : Bool
  declaracionJurada : Bool
  documentoCesion : Bool
  noSeleccionable : Bool
  pais : String
  fNac : String
  validacionFESBA : String
  fechaInicioLicencia : String
  licenciaSubsanada : Bool
  erroresNormativos : String
  deriving DecidableEq

/-- The non-excluded rows of a team group (`group[~es_excluido]`). -/
def activeRows (group : List Row) : List Row :=
  group.filter (fun r => !r.esExcluido)

/-- The active totals of `calculate_team_compliance` lines 655-666:
`(n_total, n_hombres, n_mujeres, cedidos_h, cedidos_m)`. -/
def audit_counts (group : List Row) : Nat × Nat × Nat × Nat × Nat :=
  let active := activeRows group
  (active.length,
   (active.filter (fun r => r.generoNorm == "M")).length,
   (active.filter (fun r => r.generoNorm == "F")).length,
   (active.filter (fun r => r.generoNorm == "M" && r.esCedido)).length,
   (active.filter (fun r => r.generoNorm == "F" && r.esCedido)).length)

/-- Line 731: foreign players of the WHOLE group (excluded rows
included) lacking a sworn declaration. -/
def missing_decl_count (group : List Row) : Nat :=
  (group.filter (fun r =>
    pyStrip (pyLower r.pais) ≠ "spain" && !r.declaracionJurada)).length

/-- Line 740: loaned players of the WHOLE group (excluded rows
included) lacking a loan document. -/
def missing_loan_count (group : List Row) : Nat :=
  (group.filter (fun r => r.esCedido && !r.documentoCesion)).length

/-- The size / gender / ratio issues of `calculate_team_compliance`
(lines 674-724), which are computed from the active counts only. -/
def audit_size_issues (rules : Rules) (group : List Row) : List String :=
  let c := audit_counts group
  let n_total := c.1
  let n_hombres := c.2.1
  let n_mujeres := c.2.2.1
  let cedidos_h := c.2.2.2.1
  let cedidos_m := c.2.2.2.2
  let min_total := rules.min_total.getD 0
  let max_total := rules.max_total.getD 999
  let min_gender := rules.min_gender.getD 0
  let ratio_table := rules.ratio_table.getD []
  let rh := check_ratio_dynamic n_hombres cedidos_h ratio_table
  let rm := check_ratio_dynamic n_mujeres cedidos_m ratio_table
  (if n_total < min_total then [s!"Min {min_total} jugadores"] else []) ++
  (if n_total > max_total then [s!"Max {max_total} jugadores"] else []) ++
  (if n_hombres < min_gender then [s!"Min {min_gender} Hombres"] else []) ++
  (if n_mujeres < min_gender then [s!"Min {min_gender} Mujeres"] else []) ++
  (if !rh.1 then [s!"Exceso Cedidos H ({cedidos_h}/{rh.2})"] else []) ++
  (if !rm.1 then [s!"Exceso Cedidos M ({cedidos_m}/{rm.2})"] else [])

/-- The documentation issues of `calculate_team_compliance`
(lines 726-741), computed from the whole group. -/
def audit_doc_issues (rules : Rules) (group : List Row) : List String :=
  (if rules.require_declaration.getD false then
    (let n := missing_decl_count group
     if n > 0 then [s!"Faltan {n} Dec. Juradas (extranjeros)"] else [])
   else []) ++
  (if rules.require_loan_doc.getD false then
    (let n := missing_loan_count group
     if n > 0 then [s!"Faltan {n} Doc. Cesión"] else [])
   else [])

/-- The issue list the Aggregate Auditor computes for one team with a
resolved rule set (lines 671-741); the team verdict is APTO iff this
list is empty (line 744). -/
def calculate_team_compliance_issues (rules : Rules) (group : List Row) :
    List String :=
  audit_size_issues rules group ++ audit_doc_issues rules group

/-! ## Dates (models of `datetime.strptime` / `pd.to_datetime`)

Only the relative order of dates and the birth year are consumed by
the annotator, so dates are modelled as `(year, month, day)` triples
with lenient range validation. -/

structure SimpleDate where
  year : Int
  month : Nat
  day : Nat
  deriving DecidableEq

/-- Parse a non-empty all-digit character list. -/
def digitsToNat (l : List Char) : Option Nat :=
  if l.isEmpty || !l.all Char.isDigit then none
  else some (l.foldl (fun n c => 10 * n + (c.toNat - 48)) 0)

/-- Model of `datetime.strptime(s, "%Y-%m-%d")`. -/
def parse_ymd (s : String) : Option SimpleDate :=
  match s.data.splitOn '-' with
  | [ys, ms, ds] =>
    match digitsToNat ys, digitsToNat ms, digitsToNat ds with
    | some y, some m, some d =>
      if 1 ≤ m ∧ m ≤ 12 ∧ 1 ≤ d ∧ d ≤ 31 then some ⟨(y : Int), m, d⟩ else none
    | _, _, _ => none
  | _ => none

/-- Model of `datetime.strptime(s, "%d/%m/%Y")`. -/
def parse_dmy (s : String) : Option SimpleDate :=
  match s.data.splitOn '/' with
  | [ds, ms, ys] =>
    match digitsToNat ys, digitsToNat ms, digitsToNat ds with
    | some y, some m, some d =>
      if 1 ≤ m ∧ m ≤ 12 ∧ 1 ≤ d ∧ d ≤ 31 then some ⟨(y : Int), m, d⟩ else none
    | _, _, _ => none
  | _ => none

/-- Strict lexicographic order on dates (`datetime` comparison). -/
def dateLt (a b : SimpleDate) : Bool :=
  a.year < b.year ∨
    (a.year = b.year ∧ (a.month < b.month ∨ (a.month = b.month ∧ a.day < b.day)))

/-- Model of `pd.to_datetime(x).year` on the date strings the roster
holds (ISO `YYYY-MM-DD` or `DD/MM/YYYY`); anything else fails. -/
def parse_birth_year (s : String) : Option Int :=
  match parse_ymd (pyStrip s) with
  | some d => some d.year
  | none => (parse_dmy (pyStrip s)).map (fun d => d.year)

/-- `is_adult` (lines 520-526): age is `current_year - dob.year`,
and an unparsable date is adult (fail-safe). -/
def is_adult (current_year : Int) (dob : String) : Bool :=
  match parse_birth_year dob with
  | some y => current_year - y ≥ 18
  | none => true

/-! ## Per-player annotator (`apply_comprehensive_check`)

The function resets `Errores_Normativos` and then iterates
`df.groupby('Pruebas')` (pandas visits team keys in sorted order),
applying per-row appends; each modelled step writes only the
`erroresNormativos` field. -/

/-- The append pattern `f"{x} | {err}" if x else err`. -/
def appendErr (old msg : String) : String :=
  if old = "" then msg else old ++ " | " ++ msg

/-- Clear a row's violation text. -/
def clearErr (r : Row) : Row := { r with erroresNormativos := "" }

/-- Line 409: `df['Errores_Normativos'] = ""`. -/
def annotate_reset (df : List Row) : List Row := df.map clearErr

/-- The sorted list of team keys of `df.groupby('Pruebas')`. -/
def groupKeys (df : List Row) : List String :=
  ((df.map (fun r => r.pruebas)).eraseDups).insertionSort (fun a b => a ≤ b)

/-- The `team_errors` list of one team (lines 423-478). -/
def team_errors_list (rules : Rules) (group : List Row) : List String :=
  let active := activeRows group
  let n_total := active.length
  let n_hombres := (active.filter (fun r => r.generoNorm == "M")).length
  let n_mujeres := (active.filter (fun r => r.generoNorm == "F")).length
  let cedidos_h := (active.filter (fun r => r.generoNorm == "M" && r.esCedido)).length
  let cedidos_m := (active.filter (fun r => r.generoNorm == "F" && r.esCedido)).length
  let min_total := rules.min_total.getD 0
  let max_total := rules.max_total.getD 999
  let min_gender := rules.min_gender.getD 0
  let allow_loaned := rules.allow_loaned_players.getD true
  let ratio_table := rules.ratio_table.getD []
  (if n_total < min_total then
      [s!"Mínimo total no cumplido ({n_total}/{min_total})"] else []) ++
  (if n_total > max_total then
      [s!"Máximo total excedido ({n_total}/{max_total})"] else []) ++
  (if n_hombres < min_gender then
      [s!"Mínimo Hombres no cumplido ({n_hombres}/{min_gender})"] else []) ++
  (if n_mujeres < min_gender then
      [s!"Mínimo Mujeres no cumplido ({n_mujeres}/{min_gender})"] else []) ++
  (if !allow_loaned then
      (if cedidos_h > 0 || cedidos_m > 0 then
        ["⛔ NO SE PERMITEN CEDIDOS en esta categoría"] else [])
   else
      (let rh := check_ratio_limit n_hombres cedidos_h ratio_table
       let rm := check_ratio_limit n_mujeres cedidos_m ratio_table
       (if !rh.1 then [s!"Exceso Cedidos H ({cedidos_h}/{rh.2})"] else []) ++
       (if !rm.1 then [s!"Exceso Cedidos M ({cedidos_m}/{rm.2})"] else [])))

/-- Step A (lines 484-494): missing sworn declaration, foreign
non-excluded players of the team only. -/
def step_declaration (rules : Rules) (team : String) (df : List Row) :
    List Row :=
  if rules.require_declaration.getD false then
    df.map (fun r =>
      if r.pruebas == team && !r.declaracionJurada &&
          pyUpper r.pais ≠ "SPAIN" && pyUpper r.pais ≠ "ESPAÑA" && !r.esExcluido then
        { r with erroresNormativos := appendErr r.erroresNormativos "⚠️ Falta Dec. Jurada" }
      else r)
  else df

/-- Step B (lines 497-500): loaned non-excluded players of the team
lacking a loan document. -/
def step_loan_doc (rules : Rules) (team : String) (df : List Row) :
    List Row :=
  if rules.require_loan_doc.getD false then
    df.map (fun r =>
      if r.pruebas == team && r.esCedido && !r.documentoCesion && !r.esExcluido then
        { r with erroresNormativos := appendErr r.erroresNormativos "⚠️ Falta Doc. Cesión" }
      else r)
  else df

/-- The per-row body of the `minors_only` loop (lines 530-553): first
the adult check, then — for every row of the loop, and nested INSIDE
this branch in the source — the FESBA license-validation check with
its duplicate guard. -/
def minors_row_update (current_year : Int) (r : Row) : Row :=
  let r :=
    if r.noSeleccionable && is_adult current_year r.fNac then
      { r with erroresNormativos :=
          appendErr r.erroresNormativos "⛔ No Seleccionable Mayor de Edad" }
    else r
  let val_status := pyUpper r.validacionFESBA
  let fesba_err : Option String :=
    if strContains "NO ENCONTRADO" val_status ||
        strContains "FICHA NO ENCONTRADA" val_status then some "HN-p"
    else if strContains "❌" val_status then some "⛔ Incidencia FESBA"
    else none
  match fesba_err with
  | some e =>
    if strContains e r.erroresNormativos then r
    else { r with erroresNormativos := appendErr r.erroresNormativos e }
  | none => r

/-- Step C (lines 502-553): non-selectable handling.  When the
category forbids non-selectables, flag them; otherwise, when it
restricts them to minors, run the per-row minors/FESBA loop over the
active rows of the team; otherwise do nothing. -/
def step_non_selectable (rules : Rules) (team : String) (current_year : Int)
    (df : List Row) : List Row :=
  let allow_non_sel := rules.allow_non_selectable.getD true
  let minors_only := rules.non_selectable_minors_only.getD false
  if !allow_non_sel then
    df.map (fun r =>
      if r.pruebas == team && r.noSeleccionable && !r.esExcluido then
        { r with erroresNormativos :=
            appendErr r.erroresNormativos "⚠️ No Seleccionable NO permitido" }
      else r)
  else if minors_only then
    df.map (fun r =>
      if r.pruebas == team && !r.esExcluido then minors_row_update current_year r
      else r)
  else df

/-- Step E (lines 555-586): registration-deadline check for
nationally-homologated licenses of non-excluded, non-remediated rows
of the team; parse failures skip silently. -/
def step_deadline (rules : Rules) (team : String) (df : List Row) :
    List Row :=
  let reg_deadline := rules.registration_deadline.getD ""
  if reg_deadline = "" then df
  else
    match parse_ymd reg_deadline with
    | none => df
    | some deadline =>
      df.map (fun r =>
        if r.pruebas == team && !r.esExcluido && !r.licenciaSubsanada then
          if strContains "Nacional" r.validacionFESBA ||
              strContains "HN" r.validacionFESBA ||
              strContains "Homologada" r.validacionFESBA then
            let start_str := r.fechaInicioLicencia
            if start_str ≠ "" ∧
                pyLower start_str ∉ (["nan", "none", "", "?"] : List String) then
              match parse_dmy start_str with
              | some lic_dt =>
                if dateLt deadline lic_dt then
                  { r with erroresNormativos :=
                      (appendErr r.erroresNormativos
                        ("⛔ Fuera de Plazo (" ++ start_str ++ ")")) }
                else r
              | none => r
            else r
          else r
        else r)

/-- Lines 588-593: append the joined team-level errors to every
non-excluded row of the team. -/
def apply_team_errors (team : String) (errs : List String) (df : List Row) :
    List Row :=
  if errs.isEmpty then df
  else
    let error_str :=
      String.intercalate " | " (errs.map (fun e => "⛔ EQUIPO: " ++ e))
    df.map (fun r =>
      if r.pruebas == team && !r.esExcluido then
        { r with erroresNormativos := appendErr r.erroresNormativos error_str }
      else r)

/-- One iteration of the team loop of `apply_comprehensive_check`
(lines 412-593). -/
def process_team (rules_config : List (String × Rules))
    (team_categories : List (String × String)) (current_year : Int)
    (df : List Row) (team : String) : List Row :=
  let category := _get_category_robust team team_categories
  match rulesFor rules_config category with
  | none =>
    let team_errors :=
      if category = "Sin Asignar" then ["Equipo sin categoría asignada"] else []
    apply_team_errors team team_errors df
  | some rules =>
    let group := df.filter (fun r => r.pruebas == team)
    let team_errors := team_errors_list rules group
    let df := step_declaration rules team df
    let df := step_loan_doc rules team df
    let df := step_non_selectable rules team current_year df
    let df := step_deadline rules team df
    apply_team_errors team team_errors df

/-- `apply_comprehensive_check` (lines 405-600): reset the violation
column and process each team group.  `current_year` models
`datetime.now().year`, fixed for one pass. -/
def apply_comprehensive_check (rules_config : List (String × Rules))
    (team_categories : List (String × String)) (current_year : Int)
    (df : List Row) : List Row :=
  let df0 := annotate_reset df
  (groupKeys df0).foldl (process_team rules_config team_categories current_year) df0

/-! ## Record Ingestor (`load_data`)

The Excel sheet is modelled as a grid of string cells; `load_data`
consumes it from the point where the source has read the sheet.
A pandas DataFrame is a list of column names plus aligned cell rows. -/

structure DataFrame where
  cols : List String
  rows : List (List String)
  deriving DecidableEq

/-- Index of the first column with the given name. -/
def colIdx (df : DataFrame) (name : String) : Option Nat :=
  df.cols.findIdx? (fun c => c == name)

/-- `df[name] = df[name].apply(f)` (no-op when the column is absent,
matching the source's presence guards). -/
def mapColumn (name : String) (f : String → String) (df : DataFrame) :
    DataFrame :=
  match colIdx df name with
  | none => df
  | some i =>
    { df with rows := df.rows.map (fun row =>
        row.mapIdx (fun j c => if j = i then f c else c)) }

/-- Add a new column with a constant cell value. -/
def addColumn (name value : String) (df : DataFrame) : DataFrame :=
  { cols := df.cols ++ [name], rows := df.rows.map (fun row => row ++ [value]) }

/-- The cells of a named column. -/
def getColumn (df : DataFrame) (name : String) : List String :=
  match colIdx df name with
  | none => []
  | some i => df.rows.map (fun row => row.getD i "")

/-- pandas' header de-duplication: a repeated column name gets a
`.k` suffix counting previous occurrences. -/
def mangleCols : List String → List String :=
  go []
where
  go (seen : List String) : List String → List String
    | [] => []
    | c :: rest =>
      let k := seen.count c
      (if k = 0 then c else c ++ "." ++ toString k) :: go (seen ++ [c]) rest

/-- The header keywords of lines 23-24. -/
def loadKeywords : List String := ["nombre", "club", "equipo", "licencia", "n."]

/-- How many keywords have a (lowercased) match somewhere in the row
(lines 26-33). -/
def headerMatches (row : List String) : Nat :=
  (loadKeywords.filter (fun k =>
    row.any (fun cell => containsSub k.data (pyLower cell).data))).length

/-- Header discovery over the first 20 rows. -/
def findHeaderRow (grid : List (List String)) : Option Nat :=
  (grid.take 20).findIdx? (fun row => headerMatches row ≥ 2)

/-- The system columns whose joint presence marks a backup
round-trip (line 47). -/
def system_cols : List String :=
  ["Nº.ID", "Nombre", "Pruebas", "Estado", "Notas_Revision",
   "Declaración_Jurada", "Es_Excluido"]

/-- The boolean columns coerced on the backup path (line 59). -/
def backup_bool_cols : List String :=
  ["Declaración_Jurada", "Documento_Cesión", "Es_Excluido", "Es_Cedido",
   "No_Seleccionable", "Datos_Validos", "Licencia_Subsanada"]

/-- The text columns given mojibake repair (line 158). -/
def load_text_cols : List String :=
  ["Club", "Pruebas", "Nombre", "Nombre.1", "País", "Equipo"]

/-- `strict_bool` (lines 63-65): the truthy allow-list. -/
def strict_bool (x : String) : Bool :=
  pyStrip (pyUpper x) ∈ (["TRUE", "1", "YES", "SI"] : List String)

/-- Render a coerced boolean back into a cell. -/
def boolCell (b : Bool) : String := if b then "True" else "False"

/-- Backup-path ID cleaning (line 56): strip, then remove one
trailing `.0` (anchored regex). -/
def clean_id_backup (x : String) : String :=
  let t := pyStrip x
  if strEndsWith ".0" t then ⟨t.data.take (t.data.length - 2)⟩ else t

/-- Non-backup ID cleaning (lines 124-126): strip, then — only when
the value ends in `.0` — `str.replace`, which removes EVERY
occurrence of `.0`. -/
def clean_id_std (x : String) : String :=
  let t := pyStrip x
  if strEndsWith ".0" t then pyReplace t ".0" "" else t

/-- Encode to Latin-1 (fails on code points above 255). -/
def latin1Bytes : List Char → Option (List Nat)
  | [] => some []
  | c :: rest =>
    if c.toNat ≤ 255 then (latin1Bytes rest).map (fun bs => c.toNat :: bs)
    else none

/-- Strict UTF-8 decoding of a byte list (rejecting overlong forms
and surrogates, as Python's `bytes.decode('utf-8')` does). -/
def utf8Decode : List Nat → Option (List Char)
  | [] => some []
  | b :: rest =>
    if b < 0x80 then
      (utf8Decode rest).map (fun cs => Char.ofNat b :: cs)
    else if 0xC2 ≤ b ∧ b ≤ 0xDF then
      match rest with
      | b2 :: rest2 =>
        if 0x80 ≤ b2 ∧ b2 ≤ 0xBF then
          (utf8Decode rest2).map (fun cs =>
            Char.ofNat ((b - 0xC0) * 64 + (b2 - 0x80)) :: cs)
        else none
      | [] => none
    else if 0xE0 ≤ b ∧ b ≤ 0xEF then
      match rest with
      | b2 :: b3 :: rest3 =>
        let lo2 := if b = 0xE0 then 0xA0 else 0x80
        let hi2 := if b = 0xED then 0x9F else 0xBF
        if lo2 ≤ b2 ∧ b2 ≤ hi2 ∧ 0x80 ≤ b3 ∧ b3 ≤ 0xBF then
          (utf8Decode rest3).map (fun cs =>
            Char.ofNat ((b - 0xE0) * 4096 + (b2 - 0x80) * 64 + (b3 - 0x80)) :: cs)
        else none
      | _ => none
    else if 0xF0 ≤ b ∧ b ≤ 0xF4 then
      match rest with
      | b2 :: b3 :: b4 :: rest4 =>
        let lo2 := if b = 0xF0 then 0x90 else 0x80
        let hi2 := if b = 0xF4 then 0x8F else 0xBF
        if lo2 ≤ b2 ∧ b2 ≤ hi2 ∧ 0x80 ≤ b3 ∧ b3 ≤ 0xBF ∧ 0x80 ≤ b4 ∧ b4 ≤ 0xBF then
          (utf8Decode rest4).map (fun cs =>
            Char.ofNat ((b - 0xF0) * 262144 + (b2 - 0x80) * 4096 +
              (b3 - 0x80) * 64 + (b4 - 0x80)) :: cs)
        else none
      | _ => none
    else none

/-- `smart_fix_encoding` (lines 137-155): when a cell contains `Ã`,
try `encode('latin-1').decode('utf-8')` and keep the original on any
failure. -/
def smart_fix_encoding (s : String) : String :=
  if s.data.contains 'Ã' then
    match latin1Bytes s.data with
    | none => s
    | some bs =>
      match utf8Decode bs with
      | some cs => ⟨cs⟩
      | none => s
  else s

/-- The single-pass column-mapping loop of lines 73-111, yielding the
rename map in insertion order. -/
def buildColMap (cols : List String) : List (String × String) :=
  cols.foldl (fun m col =>
    let c_str := pyStrip col
    let c_lower := pyLower c_str
    if c_str = "N." then m
    else if strEndsWith ".id" c_lower ||
        strContains "licencia" c_lower ||
        strContains "memberid" (pyReplace (pyReplace c_lower " " "") "_" "") then
      m ++ [(col, "Nº.ID")]
    else if strContains "club" c_lower then m ++ [(col, "Club")]
    else if strContains "equipo" c_lower then m ++ [(col, "Pruebas")]
    else m) []

/-- The license-ID tie-break of lines 113-118: when several columns
map to the license ID, keep only the one with the longest name (the
first such, as Python's `max`). -/
def dedupIdMap (m : List (String × String)) : List (String × String) :=
  let ids := m.filter (fun kv => kv.2 == "Nº.ID")
  match ids with
  | [] => m
  | i0 :: _ =>
    if ids.length > 1 then
      let best := ids.foldl (fun b kv =>
        if kv.1.length > b.1.length then kv else b) i0
      m.filter (fun kv => kv.2 ≠ "Nº.ID" || kv.1 == best.1)
    else m

/-- The transfer-detection block of lines 128-134: only fires when a
column literally named `Equipo` exists — which the preceding rename
has already turned into `Pruebas`. -/
def transfer_marker : String := "⚠️ MULTI-CLUB / TRANSFER"

def applyTransferTag (df : DataFrame) : DataFrame :=
  match colIdx df "Equipo", colIdx df "Estado_Transferencia" with
  | some ie, some it =>
    { df with rows := df.rows.map (fun row =>
        if (row.getD ie "").data.contains ',' then
          row.set it transfer_marker
        else row) }
  | _, _ => df

/-- `load_data` (lines 11-166) from the point where the sheet has
been read into a cell grid.  `none` models the `except` fallback
(`return None`) for structurally unreadable input — the only such
case in this model is the fixed-offset fallback with too few rows.
There is no required-column validation anywhere on this path. -/
def load_data (grid : List (List String)) : Option DataFrame :=
  let df? : Option DataFrame :=
    match findHeaderRow grid with
    | some i =>
      match grid.drop i with
      | [] => none
      | h :: rest => some ⟨mangleCols h, rest⟩
    | none =>
      match grid.drop 3 with
      | [] => none
      | h :: rest => some ⟨mangleCols h, rest⟩
  match df? with
  | none => none
  | some df =>
    let present := system_cols.filter (fun c => df.cols.contains c)
    if present.length ≥ system_cols.length - 1 then
      let df := mapColumn "Nº.ID" clean_id_backup df
      let df := backup_bool_cols.foldl
        (fun d c => mapColumn c (fun x => boolCell (strict_bool x)) d) df
      some df
    else
      let col_map := dedupIdMap (buildColMap df.cols)
      let df := { df with cols := df.cols.map (fun c =>
        ((col_map.find? (fun kv => kv.1 == c)).map (fun kv => kv.2)).getD c) }
      let df := mapColumn "Nº.ID" clean_id_std df
      let df :=
        if df.cols.contains "Estado_Transferencia" then df
        else addColumn "Estado_Transferencia" "" df
      let df := applyTransferTag df
      let df := load_text_cols.foldl (fun d c => mapColumn c smart_fix_encoding d) df
      some df

/-- The caller-side validation of `main.py` lines 622-629 (the fresh
upload path only): the canonical columns whose absence the UI
reports after `load_data` has already returned. -/
def caller_missing_cols (df : DataFrame) : List String :=
  (["Nº.ID", "Nombre", "Club", "Pruebas"] : List String).filter
    (fun c => !df.cols.contains c)

/-! ## Merge Engine: transfer resolution
(`merge_dataframes_with_log`, lines 1296-1329) -/

/-- Does candidate `p` match the player's current team (line 1313):
equal normalized names, or fuzzy similarity strictly above `0.9`? -/
def candidate_matches_old (old_team p : String) : Bool :=
  normalize_name p == normalize_name old_team ||
    fracLt ⟨9, 10⟩ (calculate_similarity p old_team)

/-- The comma-separated candidate list (line 1302): split, strip,
drop blanks. -/
def team_candidates (new_team_raw : String) : List String :=
  ((new_team_raw.data.splitOn ',').map (fun w => (⟨trimChars w⟩ : String))).filter
    (fun w => w ≠ "")

/-- The candidate loop of lines 1307-1316: `match_found` records any
match; `candidate_team` is overwritten by EVERY non-matching
candidate, so it ends as the last one. -/
def transfer_scan (old_team : String) (parts : List String) :
    Bool × Option String :=
  parts.foldl (fun acc p =>
    if candidate_matches_old old_team p then (true, acc.2)
    else (acc.1, some p)) (false, none)

/-- The team-field resolution of lines 1297-1321: resolve a
comma-separated incoming team value to `(final_team, transfer_note)`. -/
def resolve_final_team (old_team new_team_raw : String) : String × String :=
  if new_team_raw.data.contains ',' then
    match transfer_scan old_team (team_candidates new_team_raw) with
    | (true, some candidate) => (candidate, " (Transferencia Detectada)")
    | _ => (new_team_raw, "")
  else (new_team_raw, "")

/-- The team-update guard of lines 1323-1329: blank or `nan` incoming
values are ignored; otherwise the resolved team replaces a differing
current team. -/
def merged_team (old_team new_team_raw : String) : String :=
  let final_team := (resolve_final_team old_team new_team_raw).1
  if pyLower final_team = "nan" ∨ final_team = "" then old_team
  else if old_team ≠ final_team then final_team
  else old_team

/-! ## Fixtures -/

/-- A row whose license ID is the non-numeric string `ABC123`. -/
def c6Row : InRow := ⟨"ABC123", "Perez", "Ana", "Alpha", "Alpha", "Spain", "F"⟩

/-- A row whose country is `ESPAÑA`. -/
def c9Row : InRow := ⟨"1", "Perez", "Ana", "ClubX", "TeamX", "ESPAÑA", "F"⟩

/-- A raw sheet whose discovered header maps a club and a team column
but carries a comma (multi-club) team cell. -/
def c10Grid : List (List String) :=
  [["Nombre", "Club", "Equipo"], ["Ana", "ClubX", "TeamA, TeamB"]]

/-- A raw sheet whose discovered header (`Nombre` / `N.`) yields NONE
of the canonical license/club/team columns after mapping. -/
def c5Grid : List (List String) := [["Nombre", "N."], ["Ana", "1"]]

/-- The ingested table `load_data` returns for `c5Grid`. -/
def c5Frame : DataFrame :=
  ⟨["Nombre", "N.", "Estado_Transferencia"], [["Ana", "1", ""]]⟩

/-- An active row whose external license validation reads
`NO ENCONTRADO`, on a team whose category rules leave every other
check satisfied. -/
def c8Row : Row :=
  ⟨"TeamA", "M", false, false, true, true, false, "Spain", "2000-01-01",
   "NO ENCONTRADO", "", false, ""⟩

/-- Rules with `non_selectable_minors_only = false` (and nothing else
violated by `c8Row`). -/
def c8Rules : Rules :=
  ⟨some 0, some 999, some 0, some true, some [], some false, some false,
   some true, some false, none⟩

/-- The same rules with `non_selectable_minors_only = true`. -/
def c8RulesMinors : Rules :=
  { c8Rules with non_selectable_minors_only := some true }

/-- An excluded, loaned player without a loan document. -/
def c1ExcludedRow : Row :=
  ⟨"T", "M", true, true, true, false, false, "Spain", "", "", "", false, ""⟩

/-- Rules that require loan documents. -/
def c1Rules : Rules := { require_loan_doc := some true }

/-- An active male player with complete documentation. -/
def c1ActiveRow : Row :=
  ⟨"T", "M", false, false, true, true, false, "Spain", "", "", "", false, ""⟩

/-- An excluded female player with complete documentation. -/
def c1ExcludedClean : Row :=
  ⟨"T", "F", false, true, true, true, false, "Spain", "", "", "", false, ""⟩

/-- Rules with `max_total = 1`: counting the excluded row would
report a size violation. -/
def c1MaxRules : Rules := { max_total := some 1 }

/-- The example ratio table of the claim:
`[{total:4, max_loaned:1}, {total:10, max_loaned:3}]`. -/
def c2Table : List RatioRule := [⟨4, 1⟩, ⟨10, 3⟩]

/-! ## C6 — non-numeric license IDs under `process_dataframe` -/

/-- Claim C6: the claim says a non-numeric license ID string is retained;
`process_dataframe` (line 355) instead coerces it with
`pd.to_numeric(..).fillna(0).astype(int)`, so the row's ID becomes
the numeric default `0` and the string `ABC123` is lost.  This
theorem evaluates the code at the failing input. -/
theorem c6_nonnumeric_id_becomes_zero :
    ((process_dataframe [] ⟨4, 5⟩ [c6Row]).map (fun r => r.nID) = [0]) ∧
      to_numeric_int "ABC123" = none ∧ c6Row.nID = "ABC123" := by
  decide

/-! ## C9 — foreign status compares only against `SPAIN` -/

/-- Claim C9 counterexample: the claim says a row whose country equals
`ESPAÑA` is classified domestic (`is_non_selectable = false`);
`is_no_seleccionable` (lines 316-320) compares only against `SPAIN`,
so the row is classified non-selectable. -/
theorem c9_espana_is_marked_non_selectable :
    is_no_seleccionable c9Row = true ∧ c9Row.pais = "ESPAÑA" := by
  decide

/-- Claim C9 amended: `is_no_seleccionable` derives foreign status by the
single comparison against `SPAIN` (case-insensitively, after
trimming); `ESPAÑA` is NOT treated as domestic.  (Only the sworn
declaration mask of the annotator, `step_declaration`, additionally
accepts `ESPAÑA`: a row whose uppercased country is `ESPAÑA` is never
flagged for a missing declaration.) -/
theorem c9_amended_spain_only :
    (∀ r : InRow,
      is_no_seleccionable r = false ↔ pyUpper (clean_string r.pais) = "SPAIN") ∧
    (∀ (rules : Rules) (team : String) (r : Row),
      pyUpper r.pais = "ESPAÑA" →
        step_declaration rules team [r] = [r]) := by
  constructor
  · intro r
    simp only [is_no_seleccionable]
    by_cases h : pyUpper (clean_string r.pais) = "SPAIN" <;> simp [h]
  · intro rules team r h
    simp only [step_declaration]
    split
    · simp [h]
    · rfl

/-- Witness for `c9_amended_spain_only` at concrete inputs. -/
theorem c9_amended_spain_only_witness :
    (is_no_seleccionable ⟨"1", "P", "A", "C", "T", "Spain", "F"⟩ = false ↔
      pyUpper (clean_string "Spain") = "SPAIN") ∧
    step_declaration c1Rules "T"
        [⟨"T", "F", false, false, false, false, true, "ESPAÑA", "", "", "", false, ""⟩] =
      [⟨"T", "F", false, false, false, false, true, "ESPAÑA", "", "", "", false, ""⟩] :=
  ⟨c9_amended_spain_only.1 ⟨"1", "P", "A", "C", "T", "Spain", "F"⟩,
   c9_amended_spain_only.2 c1Rules "T"
     ⟨"T", "F", false, false, false, false, true, "ESPAÑA", "", "", "", false, ""⟩
     (by decide)⟩

/-! ## C10 — the transfer-tagging block is dead code -/

/-- Claim C10: the claim says every non-backup row whose team cell contains
a comma is flagged with the transfer marker.  The code (lines
128-134) checks for a column named `Equipo`, but the column mapping
(line 109-110) has already renamed every such column to `Pruebas`,
so the marker is never written: the comma row below keeps an empty
`Estado_Transferencia`. -/
theorem c10_comma_row_not_flagged :
    load_data c10Grid =
      some ⟨["Nombre", "Club", "Pruebas", "Estado_Transferencia"],
            [["Ana", "ClubX", "TeamA, TeamB", ""]]⟩ ∧
    getColumn ⟨["Nombre", "Club", "Pruebas", "Estado_Transferencia"],
               [["Ana", "ClubX", "TeamA, TeamB", ""]]⟩ "Estado_Transferencia" =
      [""] ∧
    strContains "," "TeamA, TeamB" = true ∧ "" ≠ transfer_marker := by
  decide

/-! ## C8 — FESBA license-validation surfacing is gated -/

/-- Claim C8: the claim says the license-validation short code is appended
for every active row with a not-found marker regardless of the other
rule flags.  In the source the check (lines 538-553) is nested inside
the `elif minors_only:` branch, so with
`non_selectable_minors_only = false` the `NO ENCONTRADO` row receives
no annotation at all, and with the flag set to `true` the very same
row receives `HN-p`. -/
theorem c8_fesba_check_gated_by_minors_only :
    ((apply_comprehensive_check [("Cat1", c8Rules)] [("TeamA", "Cat1")] 2026
        [c8Row]).map (fun r => r.erroresNormativos) = [""]) ∧
    ((apply_comprehensive_check [("Cat1", c8RulesMinors)] [("TeamA", "Cat1")] 2026
        [c8Row]).map (fun r => r.erroresNormativos) = ["HN-p"]) := by
  decide

/-! ## C4 — idempotence of the per-player annotator

Every write of `apply_comprehensive_check` touches only the
`erroresNormativos` field, and the pass starts by clearing that
field; so clearing the output of a pass gives back the cleared input,
and a second pass recomputes identically. -/

theorem clearErr_clearErr (r : Row) : clearErr (clearErr r) = clearErr r := rfl

/-- Mapping a row function that preserves everything but the
violation text commutes with clearing the violation text. -/
theorem map_clearErr_congr (f : Row → Row)
    (hf : ∀ r, clearErr (f r) = clearErr r) :
    ∀ df : List Row, (df.map f).map clearErr = df.map clearErr := by
  intro df
  induction df with
  | nil => rfl
  | cons r rest ih => simp [hf, ih]

theorem step_declaration_clearErr (rules : Rules) (team : String) (df : List Row) :
    (step_declaration rules team df).map clearErr = df.map clearErr := by
  unfold step_declaration
  split
  · apply map_clearErr_congr
    intro r
    split <;> rfl
  · rfl

theorem step_loan_doc_clearErr (rules : Rules) (team : String) (df : List Row) :
    (step_loan_doc rules team df).map clearErr = df.map clearErr := by
  unfold step_loan_doc
  split
  · apply map_clearErr_congr
    intro r
    split <;> rfl
  · rfl

theorem minors_row_update_clearErr (y : Int) (r : Row) :
    clearErr (minors_row_update y r) = clearErr r := by
  unfold minors_row_update
  dsimp only
  repeat' split
  all_goals rfl

theorem step_non_selectable_clearErr (rules : Rules) (team : String) (y : Int)
    (df : List Row) :
    (step_non_selectable rules team y df).map clearErr = df.map clearErr := by
  unfold step_non_selectable
  dsimp only
  split
  · apply map_clearErr_congr
    intro r
    split <;> rfl
  · split
    · apply map_clearErr_congr
      intro r
      split
      · exact minors_row_update_clearErr y r
      · rfl
    · rfl

theorem step_deadline_clearErr (rules : Rules) (team : String) (df : List Row) :
    (step_deadline rules team df).map clearErr = df.map clearErr := by
  unfold step_deadline
  dsimp only
  split
  · rfl
  · split
    · rfl
    · apply map_clearErr_congr
      intro r
      repeat' split
      all_goals rfl

theorem apply_team_errors_clearErr (team : String) (errs : List String)
    (df : List Row) :
    (apply_team_errors team errs df).map clearErr = df.map clearErr := by
  unfold apply_team_errors
  split
  · rfl
  · apply map_clearErr_congr
    intro r
    split <;> rfl

theorem process_team_clearErr (cfg : List (String × Rules))
    (cats : List (String × String)) (y : Int) (df : List Row) (team : String) :
    (process_team cfg cats y df team).map clearErr = df.map clearErr := by
  cases hcat : rulesFor cfg (_get_category_robust team cats) with
  | none =>
    simp only [process_team, hcat]
    exact apply_team_errors_clearErr _ _ _
  | some rules =>
    simp only [process_team, hcat]
    rw [apply_team_errors_clearErr, step_deadline_clearErr,
      step_non_selectable_clearErr, step_loan_doc_clearErr,
      step_declaration_clearErr]

theorem foldl_process_team_clearErr (cfg : List (String × Rules))
    (cats : List (String × String)) (y : Int) :
    ∀ (teams : List String) (df : List Row),
      ((teams.foldl (process_team cfg cats y) df).map clearErr) =
        df.map clearErr := by
  intro teams
  induction teams with
  | nil => intro df; rfl
  | cons t ts ih =>
    intro df
    rw [List.foldl_cons, ih, process_team_clearErr]

/-- The annotator pass is idempotent as a whole-table function. -/
theorem apply_comprehensive_check_idem (cfg : List (String × Rules))
    (cats : List (String × String)) (y : Int) (df : List Row) :
    apply_comprehensive_check cfg cats y (apply_comprehensive_check cfg cats y df) =
      apply_comprehensive_check cfg cats y df := by
  have hreset : ∀ d : List Row, annotate_reset d = d.map clearErr := fun d => rfl
  have hmm : annotate_reset (apply_comprehensive_check cfg cats y df) =
      annotate_reset df := by
    unfold apply_comprehensive_check
    dsimp only
    rw [hreset, hreset, foldl_process_team_clearErr, List.map_map]
    have hcc : clearErr ∘ clearErr = clearErr := funext clearErr_clearErr
    rw [hcc]
  have hdef : ∀ d : List Row, apply_comprehensive_check cfg cats y d =
      (groupKeys (annotate_reset d)).foldl (process_team cfg cats y)
        (annotate_reset d) := fun d => rfl
  rw [hdef (apply_comprehensive_check cfg cats y df), hmm, ← hdef df]

/-- Claim C4: applying the annotator twice yields the same
`normative_errors` column as applying it once, for every table, rule
set, category map (and reference year): the column is fully reset and
recomputed from the non-error fields, which no step modifies. -/
theorem c4_annotator_idempotent :
    ∀ (cfg : List (String × Rules)) (cats : List (String × String))
      (y : Int) (df : List Row),
      (apply_comprehensive_check cfg cats y
          (apply_comprehensive_check cfg cats y df)).map
        (fun r => r.erroresNormativos) =
      (apply_comprehensive_check cfg cats y df).map
        (fun r => r.erroresNormativos) := by
  intro cfg cats y df
  rw [apply_comprehensive_check_idem]

/-! ## C5 — no FormatError for missing canonical columns -/

/-- Bound on a successful `findIdx?`. -/
theorem findIdx?_bound {α : Type} (p : α → Bool) :
    ∀ (l : List α) (i0 i : Nat), List.findIdx? p l i0 = some i → i < i0 + l.length := by
  intro l
  induction l with
  | nil => intro i0 i h; simp [List.findIdx?] at h
  | cons a as ih =>
    intro i0 i h
    rw [List.findIdx?_cons] at h
    split at h
    · have : i0 = i := by simpa using h
      simp [List.length_cons]
      omega
    · have := ih (i0 + 1) i h
      simp [List.length_cons]
      omega

/-- Claim C5 counterexample: the claim says ingest fails with a
`FormatError` whenever a canonical column is missing after mapping
and never returns a table with partial columns.  On `c5Grid` the
header is discovered, no canonical column maps, and `load_data`
nevertheless returns a table; the canonical license/club/team columns
are all absent from it (as the caller-side check of `main.py` would
report — but that check lives outside the ingestor and only on the
fresh-upload path). -/
theorem c5_partial_columns_returned :
    load_data c5Grid = some c5Frame ∧
      caller_missing_cols c5Frame = ["Nº.ID", "Club", "Pruebas"] := by
  decide

/-- Claim C5 amended: `load_data` performs no required-column validation at
all — whenever header discovery succeeds it returns SOME table, with
whatever columns happened to map. -/
theorem c5_amended_load_never_fails :
    ∀ (grid : List (List String)) (i : Nat),
      findHeaderRow grid = some i → (load_data grid).isSome = true := by
  intro grid i h
  have hb : i < (grid.take 20).length := by
    have := findIdx?_bound (fun row => decide (headerMatches row ≥ 2))
      (grid.take 20) 0 i h
    omega
  have hlen : i < grid.length := by
    have h20 : (grid.take 20).length ≤ grid.length := by
      simp [List.length_take]
    omega
  have hd : grid.drop i ≠ [] := by
    rw [Ne, List.drop_eq_nil_iff]
    omega
  obtain ⟨hhead, rest, hg⟩ := List.exists_cons_of_ne_nil hd
  simp only [load_data, findHeaderRow] at h ⊢
  simp only [h, hg]
  split <;> simp

/-- Witness for `c5_amended_load_never_fails` at the concrete grid. -/
theorem c5_amended_load_never_fails_witness :
    findHeaderRow c5Grid = some 0 ∧ (load_data c5Grid).isSome = true :=
  ⟨by decide, c5_amended_load_never_fails c5Grid 0 (by decide)⟩

/-! ## C1 — exclusion invariant of the Aggregate Auditor -/

/-- Claim C1 counterexample: a team whose only member is an excluded,
loaned, undocumented player.  The claim says an excluded row
contributes to no count or issue, which would make the issue list
empty; `calculate_team_compliance` (line 740) counts the missing
loan document over the whole group, so the team reports the issue. -/
theorem c1_excluded_row_counted_in_loan_doc :
    calculate_team_compliance_issues c1Rules [c1ExcludedRow] =
      ["Faltan 1 Doc. Cesión"] ∧
    c1ExcludedRow.esExcluido = true ∧
    audit_counts [c1ExcludedRow] = (0, 0, 0, 0, 0) := by
  decide

/-- Claim C1 amended: in the Aggregate Auditor an excluded row contributes
to none of the active totals, gender counts or loaned-per-gender
counts, and hence to none of the size/gender/ratio issues — in
particular a team does not report a violation that would only arise
by counting an excluded player (final conjunct: with `max_total = 1`,
one active plus one excluded player raise no issue).  However, the
missing-sworn-declaration and missing-loan-document counts are taken
over the WHOLE group, so an excluded row does contribute to those two
issue counts, exactly by its own missing documents. -/
theorem c1_amended_exclusion_invariant :
    ∀ (rules : Rules) (group : List Row) (r : Row), r.esExcluido = true →
      audit_counts (r :: group) = audit_counts group ∧
      audit_size_issues rules (r :: group) = audit_size_issues rules group ∧
      missing_decl_count (r :: group) = missing_decl_count group +
        (if pyStrip (pyLower r.pais) ≠ "spain" ∧ r.declaracionJurada = false
         then 1 else 0) ∧
      missing_loan_count (r :: group) = missing_loan_count group +
        (if r.esCedido = true ∧ r.documentoCesion = false then 1 else 0) ∧
      calculate_team_compliance_issues c1MaxRules
        [c1ActiveRow, c1ExcludedClean] = [] := by
  intro rules group r h
  have hact : activeRows (r :: group) = activeRows group := by
    simp [activeRows, List.filter_cons, h]
  have hcounts : audit_counts (r :: group) = audit_counts group := by
    simp only [audit_counts, hact]
  refine ⟨hcounts, ?_, ?_, ?_, by decide⟩
  · simp only [audit_size_issues, hcounts]
  · simp only [missing_decl_count, List.filter_cons]
    by_cases h1 : pyStrip (pyLower r.pais) = "spain" <;>
      by_cases h2 : r.declaracionJurada <;>
        simp [h1, h2, Nat.add_comm]
  · simp only [missing_loan_count, List.filter_cons]
    by_cases h1 : r.esCedido <;>
      by_cases h2 : r.documentoCesion <;>
        simp [h1, h2, Nat.add_comm]

/-! ## C2 — ratio-table breakpoint lookup -/

/-- The claim's description of the limit lookup, written from its
words for refinement comparison with `check_ratio_dynamic`: take the
limit of the breakpoint exactly matching the total; with no exact
match, the highest breakpoint's limit when the total exceeds it, and
zero otherwise (below the lowest breakpoint — the claim is silent on
gaps between breakpoints, where the code also yields zero). -/
def ratio_limit_spec (total : Nat) (table : List RatioRule) : Nat :=
  let st := sortRatioTable table
  match st.find? (fun r => r.total == total) with
  | some r => r.max_cedidos
  | none =>
    match st.getLast? with
    | some lastRule => if lastRule.total < total then lastRule.max_cedidos else 0
    | none => 0

/-- A successful `getLast?` returns a member of the list. -/
theorem getLast?_mem_self {α : Type} :
    ∀ (l : List α) (a : α), l.getLast? = some a → a ∈ l := by
  intro l
  induction l with
  | nil => intro a h; simp at h
  | cons x rest ih =>
    intro a h
    cases rest with
    | nil => simp at h; simp [h]
    | cons y ys =>
      rw [List.getLast?_cons_cons] at h
      exact List.mem_cons_of_mem x (ih a h)

/-- Characterization of the scan of `check_ratio_dynamic` /
`check_ratio_limit` over a strictly ascending table. -/
theorem ratioScan_char :
    ∀ (l : List RatioRule) (lastRule : RatioRule) (total : Nat),
      l.Pairwise (fun a b => a.total < b.total) →
      l.getLast? = some lastRule →
      ratioScan lastRule total l (0, false) =
        (match l.find? (fun r => r.total == total) with
         | some r => (r.max_cedidos, true)
         | none =>
           if lastRule.total < total then (lastRule.max_cedidos, true)
           else (0, false)) := by
  intro l
  induction l with
  | nil => intro lastRule total _ hl; simp at hl
  | cons r rest ih =>
    intro lastRule total hp hl
    rw [List.pairwise_cons] at hp
    obtain ⟨hr, hrest⟩ := hp
    by_cases ht : total = r.total
    · simp [ratioScan, ht, List.find?_cons]
    · have hfind : List.find? (fun x => x.total == total) (r :: rest) =
          List.find? (fun x => x.total == total) rest := by
        rw [List.find?_cons]
        have : (r.total == total) = false := by
          simp
          exact fun he => ht he.symm
        rw [this]
      cases hrl : rest with
      | nil =>
        subst hrl
        have hlr : r = lastRule := by simpa using hl
        subst hlr
        have hbeq : (r.total == total) = false := by
          simp
          exact fun he => ht he.symm
        by_cases hgt : total > r.total
        · simp [ratioScan, ht, hgt, List.find?_cons, hbeq]
        · simp [ratioScan, ht, hgt, List.find?_cons, hbeq]
      | cons r2 rest2 =>
        subst hrl
        have hl2 : (r2 :: rest2).getLast? = some lastRule := by
          rwa [List.getLast?_cons_cons] at hl
        have hmem : lastRule ∈ r2 :: rest2 := getLast?_mem_self _ lastRule hl2
        have hne : ¬(r = lastRule ∧ total > r.total) := by
          rintro ⟨he, -⟩
          have := hr lastRule hmem
          rw [← he] at this
          exact lt_irrefl _ this
        rw [hfind]
        have hstep : ratioScan lastRule total (r :: r2 :: rest2) (0, false) =
            ratioScan lastRule total (r2 :: rest2) (0, false) := by
          simp only [ratioScan, if_neg ht, if_neg hne]
        rw [hstep, ih lastRule total hrest hl2]

/-- Claim C2: the loaned-player limit of the Aggregate Auditor follows the
claim's breakpoint rule on every duplicate-free ratio table (exact
breakpoint match; the highest breakpoint's limit above it; zero below
the lowest), the verdict being `loaned ≤ limit`; and on the claim's
example table `[{total:4, max:1}, {total:10, max:3}]` a team with
10 actives and 3 loans passes, with 4 loans fails, and with
3 actives and 1 loan fails. -/
theorem c2_ratio_table_lookup :
    ∀ (table : List RatioRule) (total ced : Nat),
      (table.map RatioRule.total).Nodup →
      (check_ratio_dynamic total ced table =
        (decide (ced ≤ ratio_limit_spec total table), ratio_limit_spec total table) ∧
       check_ratio_dynamic 10 3 c2Table = (true, 3) ∧
       check_ratio_dynamic 10 4 c2Table = (false, 3) ∧
       check_ratio_dynamic 3 1 c2Table = (false, 0)) := by
  intro table total ced hnodup
  refine ⟨?_, by decide, by decide, by decide⟩
  haveI hTot : IsTotal RatioRule (fun a b => a.total ≤ b.total) :=
    ⟨fun a b => Nat.le_total a.total b.total⟩
  haveI hTrans : IsTrans RatioRule (fun a b => a.total ≤ b.total) :=
    ⟨fun _ _ _ hab hbc => Nat.le_trans hab hbc⟩
  have hs : (sortRatioTable table).Sorted (fun a b => a.total ≤ b.total) :=
    List.sorted_insertionSort _ table
  have hperm : (sortRatioTable table).Perm table :=
    List.perm_insertionSort _ table
  have hnd : ((sortRatioTable table).map RatioRule.total).Nodup :=
    ((hperm.map RatioRule.total).nodup_iff).mpr hnodup
  have hnePair : (sortRatioTable table).Pairwise (fun a b => a.total ≠ b.total) :=
    List.pairwise_map.mp hnd
  have hlt : (sortRatioTable table).Pairwise (fun a b => a.total < b.total) :=
    (hs.and hnePair).imp (fun h => lt_of_le_of_ne h.1 h.2)
  have hpair : check_ratio_dynamic total ced table =
      (decide (ced ≤ (check_ratio_dynamic total ced table).2),
       (check_ratio_dynamic total ced table).2) := rfl
  suffices hsnd : (check_ratio_dynamic total ced table).2 =
      ratio_limit_spec total table by
    rw [hpair, hsnd]
  simp only [check_ratio_dynamic, ratio_limit_spec]
  cases hst : sortRatioTable table with
  | nil => simp
  | cons s0 srest =>
    rw [hst] at hlt
    cases hgl : (s0 :: srest).getLast? with
    | none => simp [List.getLast?_eq_none] at hgl
    | some lastRule =>
      dsimp only
      rw [ratioScan_char (s0 :: srest) lastRule total hlt hgl]
      cases hfind : (s0 :: srest).find? (fun r => r.total == total) with
      | some r => simp
      | none =>
        by_cases hgt : lastRule.total < total
        · simp [hgt]
        · simp [hgt]

/-- Witness for `c2_ratio_table_lookup` on the claim's example
table. -/
theorem c2_ratio_table_lookup_witness :
    (c2Table.map RatioRule.total).Nodup ∧
    check_ratio_dynamic 10 3 c2Table =
      (decide (3 ≤ ratio_limit_spec 10 c2Table), ratio_limit_spec 10 c2Table) :=
  ⟨by decide, (c2_ratio_table_lookup c2Table 10 3 (by decide)).1⟩

/-! ## C3 — the `is_cedido` characterization -/

/-- The equivalence loop stops at the FIRST key matching the club:
it is the `find?` of the key, then a membership test on that single
entry. -/
theorem findEquivalence_eq_find_first :
    ∀ (cu eu : String) (l : List (String × List String)),
      findEquivalence cu eu l =
        (match l.find? (fun kv => pyUpper kv.1 == cu) with
         | some kv => decide (eu ∈ kv.2.map pyUpper)
         | none => false) := by
  intro cu eu l
  induction l with
  | nil => rfl
  | cons kv rest ih =>
    by_cases h : pyUpper kv.1 = cu
    · simp [findEquivalence, List.find?_cons, h]
    · simp [findEquivalence, List.find?_cons, h, ih]

/-- Claim C3: `is_cedido` is true iff club and team are non-blank, differ
ignoring case, have similarity below the threshold, and the FIRST
equivalence entry keyed (case-insensitively) on the club — if any —
does not list the team; and the lookup ignores every later entry
once a key has matched the club, even one that lists the team. -/
theorem c3_is_cedido_iff :
    ∀ (row : InRow) (equivalences : List (String × List String)) (th : Frac),
      (is_cedido row equivalences th = true ↔
        (clean_string row.club ≠ "" ∧ clean_string row.pruebas ≠ "" ∧
         pyUpper (clean_string row.club) ≠ pyUpper (clean_string row.pruebas) ∧
         fracLt (calculate_similarity (clean_string row.club) (clean_string row.pruebas)) th = true ∧
         (match equivalences.find?
             (fun kv => pyUpper kv.1 == pyUpper (clean_string row.club)) with
          | some kv => pyUpper (clean_string row.pruebas) ∉ kv.2.map pyUpper
          | none => True))) ∧
      (∀ (e : String × List String) (rest : List (String × List String)),
        pyUpper e.1 = pyUpper (clean_string row.club) →
          is_cedido row (e :: rest) th = is_cedido row [e] th) := by
  intro row equivalences th
  constructor
  · simp only [is_cedido, findEquivalence_eq_find_first]
    generalize calculate_similarity (clean_string row.club) (clean_string row.pruebas) = s
    rw [fracLt_eq_not_fracLe]
    cases hf : equivalences.find?
        (fun kv => pyUpper kv.1 == pyUpper (clean_string row.club)) with
    | none =>
      simp only [hf]
      split_ifs <;> simp_all [not_or] <;> tauto
    | some kv =>
      simp only [hf]
      split_ifs <;> simp_all [not_or] <;> tauto
  · intro e rest h
    simp [is_cedido, findEquivalence, h]

/-- Witness for `c3_is_cedido_iff`: the first entry keys on the club
with no destinations; the second entry would list the team, but the
scan never reaches it. -/
theorem c3_is_cedido_iff_witness :
    pyUpper ("CLUB A" : String) =
      pyUpper (clean_string (⟨"1", "P", "A", "Club A", "TeamX", "Spain", "F"⟩ : InRow).club) ∧
    is_cedido ⟨"1", "P", "A", "Club A", "TeamX", "Spain", "F"⟩
        [("CLUB A", []), ("Club A", ["TeamX"])] ⟨4, 5⟩ =
      is_cedido ⟨"1", "P", "A", "Club A", "TeamX", "Spain", "F"⟩
        [("CLUB A", [])] ⟨4, 5⟩ :=
  ⟨by decide,
   (c3_is_cedido_iff ⟨"1", "P", "A", "Club A", "TeamX", "Spain", "F"⟩ [] ⟨4, 5⟩).2
     ("CLUB A", []) [("Club A", ["TeamX"])] (by decide)⟩

/-! ## C7 — transfer resolution in the Merge Engine -/

/-- Characterization of the candidate loop: the flag is whether any
candidate matches the current team, and the surviving candidate is
the LAST one that does not. -/
theorem transfer_scan_eq :
    ∀ (old : String) (parts : List String) (b : Bool) (c : Option String),
      parts.foldl (fun acc p =>
        if candidate_matches_old old p then (true, acc.2)
        else (acc.1, some p)) (b, c) =
      (b || parts.any (candidate_matches_old old),
       match (parts.filter (fun p => !candidate_matches_old old p)).getLast? with
       | some x => some x
       | none => c) := by
  intro old parts
  induction parts with
  | nil => intro b c; simp
  | cons p rest ih =>
    intro b c
    cases h : candidate_matches_old old p with
    | true =>
      simp only [List.foldl_cons, List.any_cons, List.filter_cons, h,
        Bool.not_true, Bool.true_or, Bool.or_true, if_true, if_false]
      rw [ih]
      simp
    | false =>
      simp only [List.foldl_cons, List.any_cons, List.filter_cons, h,
        Bool.not_false, Bool.false_or, if_true, if_false]
      rw [ih]
      cases hfl : rest.filter (fun x => !candidate_matches_old old x) with
      | nil => simp [hfl]
      | cons y ys =>
        simp only [hfl, List.getLast?_cons_cons]
        cases hgl : (y :: ys).getLast? with
        | none => simp at hgl
        | some x => simp

/-- Claim C7 counterexample: with incoming `"OldTeam, Alpha, Bravo"` for a
player currently on `OldTeam`, exactly one candidate matches and TWO
fail to match; the claim's rule ("exactly one candidate fails …
otherwise use the raw incoming value") demands the raw value, but
the code takes the LAST non-matching candidate, `Bravo`. -/
theorem c7_two_nonmatching_not_raw :
    (resolve_final_team "OldTeam" "OldTeam, Alpha, Bravo").1 = "Bravo" ∧
    (resolve_final_team "OldTeam" "OldTeam, Alpha, Bravo").1 ≠
      "OldTeam, Alpha, Bravo" ∧
    candidate_matches_old "OldTeam" "OldTeam" = true ∧
    candidate_matches_old "OldTeam" "Alpha" = false ∧
    candidate_matches_old "OldTeam" "Bravo" = false := by
  decide

/-- Claim C7 amended: when the incoming team field contains a comma, the
code resolves to the LAST candidate that fails to match the current
team provided at least one candidate does match (any number may
fail); otherwise the raw incoming value is used.  The claim's
`"OldTeam, NewTeam"` example still resolves to `NewTeam`. -/
theorem c7_amended_transfer_resolution :
    (∀ (old raw : String), raw.data.contains ',' = true →
      (let parts := team_candidates raw
       if parts.any (candidate_matches_old old) &&
           !(parts.filter (fun p => !candidate_matches_old old p)).isEmpty then
         (resolve_final_team old raw).1 =
           ((parts.filter (fun p => !candidate_matches_old old p)).getLast?).getD raw ∧
         (resolve_final_team old raw).2 = " (Transferencia Detectada)"
       else resolve_final_team old raw = (raw, ""))) ∧
    resolve_final_team "OldTeam" "OldTeam, NewTeam" =
      ("NewTeam", " (Transferencia Detectada)") ∧
    merged_team "OldTeam" "OldTeam, NewTeam" = "NewTeam" := by
  refine ⟨?_, by decide, by decide⟩
  intro old raw hc
  have hid : ∀ o : Option String,
      (match o with | some x => some x | none => (none : Option String)) = o := by
    intro o
    cases o <;> rfl
  simp only [resolve_final_team, transfer_scan, hc, transfer_scan_eq,
    Bool.false_or, hid, if_true]
  cases hfl : (team_candidates raw).filter (fun p => !candidate_matches_old old p) with
  | nil =>
    simp only [hfl, List.getLast?_nil, List.isEmpty_nil, Bool.not_true,
      Bool.and_false, if_false, Bool.false_eq_true]
    cases ha : (team_candidates raw).any (candidate_matches_old old) <;> rfl
  | cons y ys =>
    cases ha : (team_candidates raw).any (candidate_matches_old old) with
    | false => simp [ha]
    | true =>
      cases hgl : (y :: ys).getLast? with
      | none => simp at hgl
      | some x => simp [ha, hfl, hgl]

/-- Witness for `c7_amended_transfer_resolution` at the claim's own
example input. -/
theorem c7_amended_transfer_resolution_witness :
    (("OldTeam, NewTeam" : String).data.contains ',' = true) ∧
    (let parts := team_candidates "OldTeam, NewTeam"
     if parts.any (candidate_matches_old "OldTeam") &&
         !(parts.filter (fun p => !candidate_matches_old "OldTeam" p)).isEmpty then
       (resolve_final_team "OldTeam" "OldTeam, NewTeam").1 =
         ((parts.filter (fun p => !candidate_matches_old "OldTeam" p)).getLast?).getD
           "OldTeam, NewTeam" ∧
       (resolve_final_team "OldTeam" "OldTeam, NewTeam").2 =
         " (Transferencia Detectada)"
     else resolve_final_team "OldTeam" "OldTeam, NewTeam" =
       ("OldTeam, NewTeam", "")) :=
  ⟨by decide,
   c7_amended_transfer_resolution.1 "OldTeam" "OldTeam, NewTeam" (by decide)⟩

/-- Witness for `c1_amended_exclusion_invariant` at a concrete
excluded row and group. -/
theorem c1_amended_exclusion_invariant_witness :
    c1ExcludedRow.esExcluido = true ∧
    audit_counts [c1ExcludedRow, c1ActiveRow] = audit_counts [c1ActiveRow] ∧
    missing_loan_count [c1ExcludedRow, c1ActiveRow] =
      missing_loan_count [c1ActiveRow] +
        (if c1ExcludedRow.esCedido = true ∧ c1ExcludedRow.documentoCesion = false
         then 1 else 0) :=
  ⟨by decide,
   (c1_amended_exclusion_invariant c1Rules [c1ActiveRow] c1ExcludedRow (by decide)).1,
   (c1_amended_exclusion_invariant c1Rules [c1ActiveRow] c1ExcludedRow
     (by decide)).2.2.2.1⟩

end Liga
